import Mathlib

/-!
Verification of the pam-mount core against its specification.

The C sources are shallowly embedded: byte strings become `List Nat`
(one entry per byte, NUL terminators implicit), fallible or undefined
behaviour becomes `Option`, and external effects (files, processes,
syscalls) become explicit environment records.  Functions keep the
names of the C functions they embed (`mt_esccat`, `mt_unescape`,
`pmt_cmtab_add`, `pmt_cmtab_get`, `pmt_mtab_remove`,
`cipher_digest_security`, `already_mounted`, `do_mount`, `ehd_load`,
`ehd_decrypt_key`).
-/

/-- Delimiter set of mt_esccat: `" \\\t\n"` (space, backslash, tab, newline). -/
def isDel (c : Nat) : Bool :=
  c = 32 || c = 92 || c = 9 || c = 10

/-- Length of the initial delimiter-free segment, as `strcspn(s, del)`. -/
def strcspnDel : List Nat → Nat
  | [] => 0
  | c :: t => if isDel c then 0 else strcspnDel t + 1

/-- Four-byte octal escape `"\\ooo"` that mt_esccat builds for byte `c`. -/
def esc3 (c : Nat) : List Nat :=
  [92, 48 + Nat.land (Nat.shiftRight c 6) 7,
       48 + Nat.land (Nat.shiftRight c 3) 7,
       48 + Nat.land c 7]

/-- Main loop of mt_esccat.  `d` is `strcspn(str, del)` computed once from
the START of the string (the source recomputes it from `str`, not from the
moving pointer `p`, each iteration, so it is constant).  `rest` is the part
of the buffer from the current pointer on.  Each iteration copies `d` raw
bytes, escapes the byte after them, and advances past it.  Reading past the
NUL terminator is undefined behaviour and yields `none`.  The fuel is an
upper bound on iterations; each iteration consumes at least one byte, so
`length + 1` is always enough. -/
def esccatLoop (d : Nat) : Nat → List Nat → Option (List Nat)
  | 0, _ => none
  | _ + 1, [] => some []
  | fuel + 1, rest =>
    if h : d < rest.length then
      match esccatLoop d fuel (rest.drop (d + 1)) with
      | some t => some (rest.take d ++ esc3 (rest.get ⟨d, h⟩) ++ t)
      | none => none
    else if d = rest.length then
      some rest
    else
      none

/-- Embedding of `mt_esccat` (src/src/mtab.c): escape a field for an
mtab-style file.  `none` models an out-of-bounds read (undefined
behaviour) caused by the mis-sized segments. -/
def mt_esccat (s : List Nat) : Option (List Nat) :=
  if s.all (fun c => !isDel c) then some s
  else esccatLoop (strcspnDel s) (s.length + 1) s

/-- ASCII digit test, as `HX_isdigit`. -/
def isDig (c : Nat) : Bool :=
  48 ≤ c && c ≤ 57

/-- Main loop of `mt_unescape`, starting at the first backslash.  When the
three bytes after the cursor are digits, the four-byte group is replaced by
one byte and the text up to the next backslash is copied; otherwise the
cursor advances one byte WITHOUT copying it to the output (the source does
`++input; continue;` while `output` stays behind). -/
def unescLoop : Nat → List Nat → List Nat
  | 0, _ => []
  | _ + 1, [] => []
  | fuel + 1, _ :: rest =>
    match rest with
    | d1 :: d2 :: d3 :: rest2 =>
      if isDig d1 && isDig d2 && isDig d3 then
        (Nat.land (d1 - 48) 7 * 64 + Nat.land (d2 - 48) 7 * 8 + Nat.land (d3 - 48) 7)
          :: (rest2.takeWhile (fun c => c != 92) ++
              unescLoop fuel (rest2.dropWhile (fun c => c != 92)))
      else unescLoop fuel rest
    | _ => unescLoop fuel rest

/-- Embedding of `mt_unescape` (src/src/mtab.c): in-place octal unescape.
The prefix before the first backslash is untouched. -/
def mt_unescape (s : List Nat) : List Nat :=
  s.takeWhile (fun c => c != 92) ++
    unescLoop (s.length + 1) (s.dropWhile (fun c => c != 92))

/-- Whitespace test, as `HX_isspace` (space, tab, newline, vtab, formfeed,
carriage return). -/
def isSpc (c : Nat) : Bool :=
  c = 32 || c = 9 || c = 10 || c = 11 || c = 12 || c = 13

/-- Field loop of `cmtab_parse_line`: up to `n` fields, each obtained by
skipping whitespace, taking the next whitespace-free token and unescaping
it; a field stays NULL (`none`) when the cursor is already past the end of
the line. -/
def parseFields : Nat → List Nat → List (Option (List Nat))
  | 0, _ => []
  | i + 1, [] => none :: parseFields i []
  | i + 1, p =>
    let q := p.dropWhile isSpc
    let tok := q.takeWhile (fun c => !isSpc c)
    let rest := (q.dropWhile (fun c => !isSpc c)).drop 1
    some (mt_unescape tok) :: parseFields i rest

/-- Embedding of `cmtab_parse_line` (src/src/mtab.c): the four fields of
one cmtab line. -/
def cmtab_parse_line (l : List Nat) : List (Option (List Nat)) :=
  parseFields 4 l

/-- Field `i` of a parsed line (`field[i]` in the source). -/
def fieldOf (l : List Nat) (i : Nat) : Option (List Nat) :=
  (cmtab_parse_line l).getD i none

/-- C-string equality (`strcmp(a, b) == 0`): bytes up to the first NUL. -/
def cstrEq (a b : List Nat) : Bool :=
  a.takeWhile (fun c => c != 0) = b.takeWhile (fun c => c != 0)

/-- Split a file into the pieces successive `HX_getl` calls return: each
piece keeps its trailing newline; a final piece without a newline is kept;
an empty tail yields nothing. -/
def splitLines (f : List Nat) : List (List Nat) :=
  f.foldr (fun c acc =>
    if c = 10 then [10] :: acc
    else match acc with
      | [] => [[c]]
      | l :: ls => (c :: l) :: ls) []

/-- Bytes of a Lean string literal (all our concrete inputs are ASCII). -/
def strBytes (s : String) : List Nat :=
  s.data.map Char.toNat

/-- Counterexample input for the escape round trip: the 14-byte string
`abcd` `\` `\123` `xwxyz` (a backslash at the delimiter-aligned position 4
and a second backslash with three digits inside a raw-copied segment). -/
def cexC1 : List Nat := strBytes "abcd\\\\123xwxyz"

/-- What the source's mt_esccat produces for `cexC1`: the inner `"\\123"`
is copied raw because `strcspn` is taken from the string start. -/
def cexC1Enc : List Nat := strBytes "abcd\\134\\123\\170wxyz"

/-- What mt_unescape makes of `cexC1Enc`: the raw `"\\123"` collapses to
one byte `S`. -/
def cexC1Dec : List Nat := strBytes "abcd\\Sxwxyz"

/-- The concrete string of the specification's escape scenario:
`/mnt/with space\and<TAB>newline<NL>`. -/
def specEscInput : List Nat := strBytes "/mnt/with space\\and\tnewline\n"

/-- Which of the four out-parameters of pmt_cmtab_get the caller passes as
non-NULL pointers. -/
structure CmtabReq where
  mp : Bool
  ct : Bool
  lo : Bool
  cr : Bool

/-- All four out-parameters requested. -/
def allReq : CmtabReq := ⟨true, true, true, true⟩

/-- State of the out-parameters of pmt_cmtab_get while scanning the file;
`found` mirrors `ret`. -/
structure CmtabGetSt where
  found : Bool
  mountpoint : Option (List Nat)
  container : Option (List Nat)
  loop_device : Option (List Nat)
  crypto_device : Option (List Nat)
deriving DecidableEq

/-- One line of the pmt_cmtab_get scan.  A NULL parsed field that the code
would hand to `strcmp` is undefined behaviour and yields `none`.  On a
match the mountpoint and container are overwritten unconditionally, while
the loop and crypto fields are overwritten only when the new field is not
`"-"`. -/
def getStep (spec : List Nat) (ty : Nat) (req : CmtabReq) :
    Option CmtabGetSt → List Nat → Option CmtabGetSt
  | none, _ => none
  | some st, l =>
    match fieldOf l ty with
    | none => none
    | some v =>
      if cstrEq spec v then
        let mp := if req.mp then fieldOf l 0 else st.mountpoint
        let ct := if req.ct then fieldOf l 1 else st.container
        let lo? : Option (Option (List Nat)) :=
          if req.lo then
            match fieldOf l 2 with
            | none => none
            | some v2 => some (if cstrEq v2 [45] then st.loop_device else some v2)
          else some st.loop_device
        let cr? : Option (Option (List Nat)) :=
          if req.cr then
            match fieldOf l 3 with
            | none => none
            | some v3 => some (if cstrEq v3 [45] then st.crypto_device else some v3)
          else some st.crypto_device
        match lo?, cr? with
        | some lo, some cr => some ⟨true, mp, ct, lo, cr⟩
        | _, _ => none
      else some st

/-- Embedding of `pmt_cmtab_get` (src/src/mtab.c).  Returns the `ret`
value together with the final out-parameters; `none` models undefined
behaviour.  The file is assumed openable (the -errno path is caller
environment, not registry logic). -/
def pmt_cmtab_get (file spec : List Nat) (ty : Nat) (req : CmtabReq) :
    Option (Int × CmtabGetSt) :=
  if 4 ≤ ty then some (-22, ⟨false, none, none, none, none⟩)
  else
    match (splitLines file).foldl (getStep spec ty req)
        (some ⟨false, none, none, none, none⟩) with
    | none => none
    | some st => some (if st.found then 1 else 0, st)

/-- Embedding of `pmt_cmtab_add` (src/src/mtab.c): a NULL container is
rejected with -EINVAL before any file access; NULL loop or crypto devices
become the field `"-"`; the escaped fields are joined with tabs and a
newline and `strlen(line)` bytes are appended.  `none` models undefined
behaviour inside the escaping. -/
def pmt_cmtab_add (file mp : List Nat) (ct lo cr : Option (List Nat)) :
    Option (Int × List Nat) :=
  match ct with
  | none => some (-22, file)
  | some ct =>
    match mt_esccat mp, mt_esccat ct,
          mt_esccat (lo.getD [45]), mt_esccat (cr.getD [45]) with
    | some a, some b, some c, some d =>
      let line := a ++ [9] ++ b ++ [9] ++ c ++ [9] ++ d ++ [10]
      let wr := line.takeWhile (fun x => x != 0)
      some ((wr.length : Int), file ++ wr)
    | _, _, _, _ => none

/-- Does a line match the key on field `ty` (the `strcmp` in the scan
loops)?  False when the field is NULL, which the callers treat as
undefined behaviour separately. -/
def lineMatches (spec : List Nat) (ty : Nat) (l : List Nat) : Bool :=
  match fieldOf l ty with
  | some v => cstrEq spec v
  | none => false

/-- Drop the first list element satisfying `p`. -/
def removeFirst (p : List Nat → Bool) : List (List Nat) → List (List Nat)
  | [] => []
  | l :: ls => if p l then ls else l :: removeFirst p ls

/-- Embedding of `pmt_mtab_remove` (src/src/mtab.c): scan all lines
remembering the offsets of the LAST matching line, then compact the file
by copying everything after it over it and truncating — net effect: the
last matching line is deleted, everything else keeps its bytes and order.
`none` models the undefined `strcmp` against a NULL field. -/
def pmt_mtab_remove (file spec : List Nat) (ty : Nat) : Option (Int × List Nat) :=
  let ls := splitLines file
  if ls.any (fun l => (fieldOf l ty).isNone) then none
  else if ls.any (lineMatches spec ty) then
    some (1, ((removeFirst (lineMatches spec ty) ls.reverse).reverse).flatten)
  else
    some (0, file)

/-- Embedding of `pmt_cmtab_remove` (src/src/mtab.c): field-index guard,
then `pmt_mtab_remove` on the cmtab. -/
def pmt_cmtab_remove (file spec : List Nat) (ty : Nat) : Option (Int × List Nat) :=
  if 4 ≤ ty then some (-22, file)
  else pmt_mtab_remove file spec ty

/-- Delimiters of the cipher/digest tokenizer: `",-.:_"`. -/
def sepDelims : List Char := [',', '-', '.', ':', '_']

/-- Tokenization by `HX_strsep(&tmp, ",-.:_")`: split at every delimiter,
keeping empty tokens; the empty string yields one empty token. -/
def strsepSplit (s : List Char) : List (List Char) :=
  s.foldr (fun c acc =>
    if sepDelims.contains c then [] :: acc
    else match acc with
      | [] => [[c]]
      | t :: ts => (c :: t) :: ts) [[]]

/-- Blacklist of `__cipher_digest_security`. -/
def cdsBlacklist : List (List Char) :=
  ["ecb".data, "rc2".data, "rc4".data, "des".data, "des3".data,
   "md2".data, "md4".data]

/-- Embedding of `__cipher_digest_security`: 0 for a blacklisted token,
2 otherwise. -/
def cds_token (t : List Char) : Nat :=
  if cdsBlacklist.contains t then 0 else 2

/-- Token loop of `cipher_digest_security`: stop at the first verdict
below 2; with no tokens left the last verdict (necessarily 2) stands. -/
def cds_loop : List (List Char) → Nat
  | [] => 2
  | t :: rest => if cds_token t < 2 then cds_token t else cds_loop rest

/-- Embedding of `cipher_digest_security` (crypto part of the source):
tokenize the compound name and fold the per-token verdicts. -/
def cipher_digest_security (s : String) : Nat :=
  cds_loop (strsepSplit s.data)

/-- Mount-command kinds relevant to the mount controller
(`CMD_*MOUNT` constants). -/
inductive Cmd
  | smbmount
  | cifsmount
  | ncpmount
  | nfsmount
  | lclmount
  | cryptmount
  | fusemount
  | truecryptmount
deriving DecidableEq

/-- The fields of `struct vol` that the mount controller reads. -/
structure Vol where
  type : Cmd
  server : String
  volume : String
  mountpoint : String
  user : String
  fstype : String
  fs_key_cipher : String
  fs_key_path : String
  options : List (String × String)
  uses_ssh : Bool

/-- The fields of `struct config` that the mount controller reads;
`cmdDefined k` models `config->command[k][0] != NULL`. -/
structure Config where
  volume : Vol
  mkmntpoint : Bool
  cmdDefined : Cmd → Bool
  debug : Bool

/-- One `getmntent` record of the kernel mount list. -/
structure MtabEnt where
  fsname : String
  fstype : String
  dir : String
deriving DecidableEq

/-- External state that `do_mount` interacts with.  `loopBk` models the
stat/LOOP_GET_STATUS64 resolution of a loop-device fsname to its backing
file (identity for anything that is not a loop device); `checkFsSpawns`
abstracts the helper processes `check_filesystem` itself spawns for local
mounts; `decryptedKeyLen` is the result of `decrypted_key`. -/
structure MountEnv where
  mtab : Option (List MtabEnt)
  realpathMpt : Option String
  loopBk : String → String
  existsMpt : Bool
  mkmountpointOk : Bool
  decryptedKeyLen : Option Nat
  checkFsOk : Bool
  checkFsSpawns : List String
  spawnMountOk : Bool
  waitpidOk : Bool
  childExit : Nat

/-- ASCII lower-casing, as `tolower` under the C locale. -/
def asciiLower (c : Char) : Char :=
  if 65 ≤ c.toNat ∧ c.toNat ≤ 90 then Char.ofNat (c.toNat + 32) else c

/-- Case-insensitive string equality (`strcasecmp(a, b) == 0`). -/
def caseEq (a b : String) : Bool :=
  a.data.map asciiLower = b.data.map asciiLower

/-- Lookup in a key-value option list (`kvplist_get`), empty if absent. -/
def kvGet (opts : List (String × String)) (k : String) : String :=
  match opts.find? (fun p => p.1 == k) with
  | some p => p.2
  | none => ""

/-- Embedding of `vol_to_dev` (mount controller): canonical device form of
a volume.  For dm-crypt the slashes of the volume name after the
`/dev/mapper/` prefix become underscores. -/
def vol_to_dev (v : Vol) : String :=
  match v.type with
  | Cmd.smbmount => "//" ++ v.server ++ "/" ++ v.volume
  | Cmd.cifsmount => "//" ++ v.server ++ "/" ++ v.volume
  | Cmd.ncpmount => v.server ++ "/" ++ kvGet v.options "user"
  | Cmd.nfsmount => v.server ++ ":" ++ v.volume
  | Cmd.cryptmount =>
    "/dev/mapper/" ++ String.mk (v.volume.data.map (fun c => if c = '/' then '_' else c))
  | _ => v.volume

/-- The per-entry test of the `already_mounted` scan loop: resolve a
loop-device fsname to its backing file, compare it with the canonical
device form (case-insensitively for smbfs/cifs/ncpfs entries), and compare
the mount directory with the configured mountpoint or its realpath. -/
def mtabEntMatches (v : Vol) (dev realMpt : String) (loopBk : String → String)
    (e : MtabEnt) : Bool :=
  (if e.fstype = "smbfs" ∨ e.fstype = "cifs" ∨ e.fstype = "ncpfs"
   then caseEq (loopBk e.fsname) dev
   else loopBk e.fsname == dev)
  && (e.dir == v.mountpoint || e.dir == realMpt)

/-- Embedding of `already_mounted` (mount controller, Linux variant):
-1 when the kernel mount list cannot be opened, 1 when some entry matches,
0 otherwise.  A failed `realpath` falls back to the configured
mountpoint. -/
def already_mounted (cfg : Config) (env : MountEnv) : Int :=
  match env.mtab with
  | none => -1
  | some entries =>
    let v := cfg.volume
    let dev := vol_to_dev v
    let realMpt := env.realpathMpt.getD v.mountpoint
    if entries.any (mtabEntMatches v dev realMpt env.loopBk) then 1 else 0

/-- Observable outcome of `do_mount`: its return value, the helper
processes successfully spawned, whether the filesystem-key buffer
`_password` was filled, and whether it was zeroed (`memset`) before
returning. -/
structure DoMountOut where
  ret : Int
  spawns : List String
  keyFilled : Bool
  keyZeroed : Bool
deriving DecidableEq

/-- Embedding of `do_mount` (mount controller).  Control flow follows the
source: already-mounted check (error fails, mounted succeeds immediately),
mountpoint existence/creation, mount-command presence, key fill (keyfile
decryption when a cipher is configured, else the authentication password),
optional filesystem check for local mounts, spawn of the mount helper,
key delivery, `memset` of the key buffer, wait, optional debug `df`. -/
def do_mount (cfg : Config) (env : MountEnv) : DoMountOut :=
  let v := cfg.volume
  let am := already_mounted cfg env
  if am = -1 then ⟨0, [], false, false⟩
  else if am = 1 then ⟨1, [], false, false⟩
  else if !env.existsMpt && !cfg.mkmntpoint then ⟨0, [], false, false⟩
  else if !env.existsMpt && !env.mkmountpointOk then ⟨0, [], false, false⟩
  else if !cfg.cmdDefined v.type then ⟨0, [], false, false⟩
  else if 0 < v.fs_key_cipher.length && env.decryptedKeyLen.isNone then
    ⟨0, [], false, false⟩
  else
    let sp0 := if v.type = Cmd.lclmount then env.checkFsSpawns else []
    if !env.spawnMountOk then ⟨0, sp0, true, false⟩
    else
      let sp1 := sp0 ++ ["mount"]
      if !env.waitpidOk then ⟨0, sp1, true, true⟩
      else
        let sp2 := sp1 ++ (if cfg.debug then ["df"] else [])
        ⟨if env.childExit = 0 then 1 else 0, sp2, true, true⟩

/-- ASCII alphanumeric test, as `HX_isalnum`. -/
def HX_isalnum (c : Char) : Bool :=
  (48 ≤ c.toNat && c.toNat ≤ 57) || (65 ≤ c.toNat && c.toNat ≤ 90) ||
  (97 ≤ c.toNat && c.toNat ≤ 122)

/-- Embedding of `ehd_crypto_name`: every non-alphanumeric byte of the
container path becomes an underscore. -/
def ehd_crypto_name (s : String) : String :=
  String.mk (s.data.map (fun c => if HX_isalnum c then c else '_'))

/-- External results seen by `ehd_is_luks`: the transient loop setup (used
only when the path is not a block device) and the `HXproc_run_sync` result
of `cryptsetup isLuks`. -/
structure LuksEnv where
  loopSetup : Int
  loopDev : String
  runSync : Int

/-- Embedding of `ehd_is_luks`: loop failures give -1; a negative
`run_sync` result is passed through; a terminated helper (status above
0xFFFF) gives -1; otherwise 1 for exit status 0 and 0 for nonzero exit. -/
def ehd_is_luks (blkdev : Bool) (env : LuksEnv) : Int :=
  if !blkdev && env.loopSetup = 0 then -1
  else if !blkdev && env.loopSetup < 0 then -1
  else
    let r := env.runSync
    if r < 0 then r
    else if 65535 < r then -1
    else if r = 0 then 1 else 0

/-- External results seen by `ehd_load_2`: the LUKS probe, the
`HXproc_run_async` result for the cryptsetup invocation and its wait
status. -/
structure Load2Env where
  luks : LuksEnv
  runAsync : Int
  waitStatus : Int

/-- Embedding of `ehd_load_2`: fail when the LUKS probe errors, when the
helper cannot be started, or when it exits nonzero; succeed otherwise. -/
def ehd_load_2 (env : Load2Env) : Bool :=
  if ehd_is_luks true env.luks < 0 then false
  else if env.runAsync ≤ 0 then false
  else if env.waitStatus ≠ 0 then false
  else true

/-- External results seen by `ehd_load`: the container stat, and — when
the container is a regular file — the loop-device allocation. -/
structure EhdEnv where
  statOk : Bool
  statErrno : Int
  isBlk : Bool
  loopSetup : Int
  loopDev : String
  load2 : Load2Env

/-- Observable outcome of `ehd_load`: return value, the loop devices
released (`pmt_loop_release`), and the crypto device handed to the
caller. -/
structure EhdOut where
  ret : Int
  released : List String
  crypto_device : Option String
deriving DecidableEq

/-- Embedding of `ehd_load`: stat failure returns -errno; a block-device
container is used directly; otherwise a loop device is allocated (0 = no
free device, negative = error, both returned as `false` = 0).  After
`ehd_load_2`, the loop device (when one was set up) is always released;
on failure the crypto device is not handed out. -/
def ehd_load (cont_path : String) (env : EhdEnv) : EhdOut :=
  if !env.statOk then ⟨-env.statErrno, [], none⟩
  else if env.isBlk then
    let r2 := ehd_load_2 env.load2
    ⟨if r2 then 1 else 0, [],
      if r2 then some ("/dev/mapper/" ++ ehd_crypto_name cont_path) else none⟩
  else if env.loopSetup = 0 then ⟨0, [], none⟩
  else if env.loopSetup < 0 then ⟨0, [], none⟩
  else
    let r2 := ehd_load_2 env.load2
    ⟨if r2 then 1 else 0, [env.loopDev],
      if r2 then some ("/dev/mapper/" ++ ehd_crypto_name cont_path) else none⟩

/-- External results seen by `ehd_decrypt_key`: name resolution of digest
and cipher, and the keyfile syscalls.  `fileSize` is `sb.st_size`. -/
structure KeyEnv where
  digestKnown : Bool
  cipherKnown : Bool
  openOk : Bool
  fstatOk : Bool
  mallocOk : Bool
  readOk : Bool
  fileSize : Nat

/-- Embedding of `ehd_decrypt_key`: resolve names, open, stat, allocate
and read the whole keyfile, then point the salt at offset 8 and the
ciphertext at offset 16 and call `ehd_decrypt_key2` — with NO check that
the file holds the 16 header bytes, so `keysize = st_size - 16` is
computed in unsigned int arithmetic.  The result is `some keysize` when
`ehd_decrypt_key2` is reached (decryption attempted with that many data
bytes) and `none` when the function gives up beforehand. -/
def ehd_decrypt_key (env : KeyEnv) : Option Nat :=
  if !env.digestKnown then none
  else if !env.cipherKnown then none
  else if !env.openOk then none
  else if !env.fstatOk then none
  else if !env.mallocOk then none
  else if !env.readOk then none
  else some ((((env.fileSize : Int) - 16) % (2 ^ 32 : Int)).toNat)

/-- Last element of a list of optional values, or a fallback: the value an
out-parameter holds after being overwritten by each element in turn. -/
def lastOr (x : Option (List Nat)) : List (Option (List Nat)) → Option (List Nat)
  | [] => x
  | v :: vs => lastOr v vs

/-- Value of a loop/crypto out-parameter after scanning the given matching
lines: field `i` of each line overwrites the accumulator unless it is
`"-"`. -/
def lastND (i : Nat) : Option (List Nat) → List (List Nat) → Option (List Nat)
  | x, [] => x
  | x, l :: ms =>
    lastND i
      (match fieldOf l i with
       | some v => if cstrEq v [45] then x else some v
       | none => x) ms

/-- Cmtab file with two records for the same mountpoint, the later one
with `"-"` in the loop-device field. -/
def cexC2File : List Nat :=
  strBytes "/mnt/a\t/c1\t/dev/loop1\t/dev/mapper/x\n/mnt/a\t/c2\t-\t/dev/mapper/y\n"

/-- Single-record cmtab file whose loop and crypto fields are `"-"`. -/
def dashFile : List Nat := strBytes "/mnt/a\t/cont\t-\t-\n"

/-- Container path whose escaping embeds a raw newline: space at index 4
fixes the segment length, the newline at index 13 sits inside a raw-copied
segment, and the final `m` is escaped to `"\\155"`. -/
def cexC3Cont : List Nat := strBytes "abcd efghijkl\nm"

/-- File content after appending the record
`(mountpoint "m", container cexC3Cont, -, -)` to an empty cmtab: the raw
newline splits the record into two file lines. -/
def cexC3File1 : List Nat := strBytes "m\tabcd\\040efgh\\151jkl\n\\155\t-\t-\n"

/-- File content after removing by mountpoint `"m"`: only the second piece
is deleted, the first piece still parses with mountpoint `"m"`. -/
def cexC3File2 : List Nat := strBytes "m\tabcd\\040efgh\\151jkl\n"

/-- The cifs volume of the already-mounted scenario. -/
def volC4 : Vol :=
  { type := Cmd.cifsmount, server := "SRV", volume := "share",
    mountpoint := "/mnt/s", user := "user", fstype := "cifs",
    fs_key_cipher := "", fs_key_path := "", options := [], uses_ssh := false }

/-- Configuration holding `volC4`, with every helper command defined. -/
def cfgC4 : Config :=
  { volume := volC4, mkmntpoint := false, cmdDefined := fun _ => true,
    debug := false }

/-- The kernel mount list entry `"//srv/share /mnt/s cifs rw 0 0"`. -/
def entC4 : MtabEnt := { fsname := "//srv/share", fstype := "cifs", dir := "/mnt/s" }

/-- Environment for the already-mounted scenario. -/
def envC4 : MountEnv :=
  { mtab := some [entC4], realpathMpt := none, loopBk := fun s => s,
    existsMpt := true, mkmountpointOk := true, decryptedKeyLen := none,
    checkFsOk := true, checkFsSpawns := [], spawnMountOk := true,
    waitpidOk := true, childExit := 0 }

/-- Environment in which the volume is not mounted yet, the mountpoint
exists, the key buffer is filled from the password, and spawning the mount
helper fails. -/
def envC5 : MountEnv :=
  { mtab := some [], realpathMpt := none, loopBk := fun s => s,
    existsMpt := true, mkmountpointOk := true, decryptedKeyLen := none,
    checkFsOk := true, checkFsSpawns := [], spawnMountOk := false,
    waitpidOk := true, childExit := 0 }

/-- Keyfile environment: digest and cipher resolve, all keyfile I/O
succeeds, and the keyfile is empty (0 bytes, smaller than the 16 header
bytes). -/
def keyEnvC6 : KeyEnv :=
  { digestKnown := true, cipherKnown := true, openOk := true,
    fstatOk := true, mallocOk := true, readOk := true, fileSize := 0 }

/-- EHD environment: regular-file container, loop `/dev/loop7` allocated,
LUKS probe succeeds (exit 0), the cryptsetup helper starts but exits with
status 1. -/
def envC7 : EhdEnv :=
  { statOk := true, statErrno := 0, isBlk := false, loopSetup := 1,
    loopDev := "/dev/loop7",
    load2 := { luks := { loopSetup := 0, loopDev := "", runSync := 0 },
               runAsync := 1, waitStatus := 1 } }

/-- C1: the escape round trip fails on the source.  For the 14-byte input
`abcd\` `\123` `xwxyz` the escaper is defined (no out-of-bounds read), but
because `strcspn` is computed from the string start instead of the cursor,
the inner `\123` is copied raw; the decoder then collapses it to the
single byte `S`, so decode(encode(s)) is `abcd\Sxwxyz`, not `s`. -/
theorem mt_escape_roundtrip_fails :
    mt_esccat cexC1 = some cexC1Enc ∧ mt_unescape cexC1Enc = cexC1Dec ∧
    cexC1Dec ≠ cexC1 := by decide

/-- C9: on the specification's concrete string
`/mnt/with space\and<TAB>newline<NL>` the escaper reads past the end of
the buffer (undefined behaviour): with the mis-sized segments the third
copy takes 9 bytes where only 8 remain, so it never produces the claimed
`/mnt/with\040space\134and\011newline\012`. -/
theorem mt_esccat_spec_scenario_undefined :
    mt_esccat specEscInput = none := by decide

/-- C3: append-then-remove is not clean.  Appending the record
`("m", cexC3Cont, -, -)` to an EMPTY cmtab writes a payload whose escaped
container field embeds a raw newline, so the record occupies two file
lines, both of which parse with mountpoint `"m"`.  Removal deletes only
the later line, and a subsequent lookup of `"m"` (loop/crypto
out-parameters not requested) still reports found (ret = 1), contradicting
the claimed not-found. -/
theorem cmtab_add_remove_lookup_bug :
    pmt_cmtab_add [] (strBytes "m") (some cexC3Cont) none none =
      some (31, cexC3File1) ∧
    pmt_cmtab_remove cexC3File1 (strBytes "m") 0 = some (1, cexC3File2) ∧
    (pmt_cmtab_get cexC3File2 (strBytes "m") 0 ⟨true, true, false, false⟩).map
      Prod.fst = some 1 := by decide

/-- C5: when the volume is not yet mounted, the mountpoint exists, the
key buffer has been filled from the authentication password, and
`spawn_start` for the mount helper fails, `do_mount` returns 0 WITHOUT
zeroing the key buffer — the `memset` sits after the spawn call and the
failure path returns early. -/
theorem do_mount_spawn_failure_key_not_zeroed :
    do_mount cfgC4 envC5 = ⟨0, [], true, false⟩ := by decide

/-- C6: for a keyfile of 0 bytes (smaller than the 16 header bytes) with
resolvable digest and cipher and successful I/O, `ehd_decrypt_key` does
NOT fail before decrypting: it computes `keysize = st_size - 16` in
unsigned int arithmetic, which underflows to 4294967280, and calls
`ehd_decrypt_key2` with that length. -/
theorem ehd_decrypt_key_short_keyfile_underflow :
    ehd_decrypt_key keyEnvC6 = some 4294967280 := by decide

/-- C2 counterexample: with two records for mountpoint `/mnt/a`, the later
one holding `"-"` in the loop-device field, the lookup returns the loop
device of the EARLIER record instead of the claimed absent (NULL)
out-parameter: the scan skips `"-"` fields instead of clearing them. -/
theorem pmt_cmtab_get_dash_counterexample :
    pmt_cmtab_get cexC2File (strBytes "/mnt/a") 0 allReq =
      some (1, ⟨true, some (strBytes "/mnt/a"), some (strBytes "/c2"),
        some (strBytes "/dev/loop1"), some (strBytes "/dev/mapper/y")⟩) ∧
    (pmt_cmtab_get cexC2File (strBytes "/mnt/a") 0 allReq).map
      (fun r => r.2.loop_device) ≠ some none := by decide

/-- Helper for C8: the token loop returns 0 exactly when some token is
blacklisted, and 2 otherwise. -/
theorem cds_loop_blacklist (ts : List (List Char)) :
    cds_loop ts = if ts.any (fun t => cdsBlacklist.contains t) then 0 else 2 := by
  induction ts with
  | nil => simp [cds_loop]
  | cons t rest ih =>
    by_cases h : t ∈ cdsBlacklist
    · simp [cds_loop, cds_token, h]
    · simp [cds_loop, cds_token, h, ih]

/-- C8: the security verdict is 0 (BLACKLISTED) exactly when some token of
the name — split at the characters `,-.:_` — is one of ecb, rc2, rc4,
des, des3, md2, md4, and 2 (ADEQUATE) otherwise; in particular
`aes-256-cbc` is adequate while `aes-ecb` and `md4-sha256` are
blacklisted. -/
theorem cipher_digest_security_blacklist :
    (∀ s : String, cipher_digest_security s =
      if (strsepSplit s.data).any (fun t => cdsBlacklist.contains t) then 0 else 2) ∧
    cipher_digest_security "aes-256-cbc" = 2 ∧
    cipher_digest_security "aes-ecb" = 0 ∧
    cipher_digest_security "md4-sha256" = 0 :=
  ⟨fun s => cds_loop_blacklist (strsepSplit s.data), by decide, by decide, by decide⟩

/-- C10: `pmt_cmtab_add` returns -EINVAL and leaves the file unchanged
when the container is NULL; NULL loop/crypto devices are stored as the
one-character field `"-"`; and a stored `"-"` is reported as absent (NULL
out-parameter) by a lookup that matches only that record. -/
theorem pmt_cmtab_add_null_args :
    (∀ file mp lo cr, pmt_cmtab_add file mp none lo cr = some (-22, file)) ∧
    (∀ file mp ct emp ect, mt_esccat mp = some emp → mt_esccat ct = some ect →
      pmt_cmtab_add file mp (some ct) none none =
        some ((((emp ++ [9] ++ ect ++ [9] ++ [45] ++ [9] ++ [45] ++ [10]).takeWhile
            (fun x => x != 0)).length : Int),
          file ++ (emp ++ [9] ++ ect ++ [9] ++ [45] ++ [9] ++ [45] ++ [10]).takeWhile
            (fun x => x != 0))) ∧
    pmt_cmtab_get dashFile (strBytes "/mnt/a") 0 allReq =
      some (1, ⟨true, some (strBytes "/mnt/a"), some (strBytes "/cont"),
        none, none⟩) := by
  refine ⟨fun file mp lo cr => rfl, ?_, by decide⟩
  intro file mp ct emp ect h1 h2
  unfold pmt_cmtab_add
  rw [show (some ct : Option (List Nat)) = some ct from rfl]
  simp only [Option.getD_none]
  rw [h1, h2, show mt_esccat [45] = some [45] from rfl]

/-- Witness for C10 at a concrete file and record. -/
theorem pmt_cmtab_add_null_args_witness :
    pmt_cmtab_add (strBytes "x\ty\t-\t-\n") (strBytes "/mnt/b")
      (some (strBytes "/cb")) none none =
      some (15, strBytes "x\ty\t-\t-\n/mnt/b\t/cb\t-\t-\n") := by
  have h := pmt_cmtab_add_null_args.2.1 (strBytes "x\ty\t-\t-\n")
    (strBytes "/mnt/b") (strBytes "/cb") (strBytes "/mnt/b") (strBytes "/cb")
    (by decide) (by decide)
  rw [h]; decide

/-- Helper for C2: the scan of pmt_cmtab_get, started from any
out-parameter state, ends with `found` set when some line matches, the
mountpoint/container of the last matching line, and for loop/crypto the
last non-`"-"` field among the matching lines (keeping the prior value
when every matching field is `"-"`). -/
theorem cmtab_get_fold (spec : List Nat) (ty : Nat) (hty : ty < 4)
    (ls : List (List Nat)) :
    ∀ st : CmtabGetSt,
      (∀ l ∈ ls, ∀ i, i < 4 → (fieldOf l i).isSome) →
      ls.foldl (getStep spec ty allReq) (some st) =
        some { found := st.found || ls.any (lineMatches spec ty),
               mountpoint := lastOr st.mountpoint
                 ((ls.filter (lineMatches spec ty)).map (fun l => fieldOf l 0)),
               container := lastOr st.container
                 ((ls.filter (lineMatches spec ty)).map (fun l => fieldOf l 1)),
               loop_device := lastND 2 st.loop_device
                 (ls.filter (lineMatches spec ty)),
               crypto_device := lastND 3 st.crypto_device
                 (ls.filter (lineMatches spec ty)) } := by
  induction ls with
  | nil => intro st _; simp [lastOr, lastND]
  | cons l ls ih =>
    intro st hwf
    have hwl := hwf l (List.mem_cons_self l ls)
    obtain ⟨v, hv⟩ := Option.isSome_iff_exists.mp (hwl ty hty)
    obtain ⟨v2, hv2⟩ := Option.isSome_iff_exists.mp (hwl 2 (by omega))
    obtain ⟨v3, hv3⟩ := Option.isSome_iff_exists.mp (hwl 3 (by omega))
    have hwfr : ∀ x ∈ ls, ∀ i, i < 4 → (fieldOf x i).isSome :=
      fun x hx => hwf x (List.mem_cons_of_mem l hx)
    have hlm : lineMatches spec ty l = cstrEq spec v := by
      simp [lineMatches, hv]
    by_cases hm : cstrEq spec v = true
    · have hstep : getStep spec ty allReq (some st) l =
          some ⟨true, fieldOf l 0, fieldOf l 1,
            if cstrEq v2 [45] then st.loop_device else some v2,
            if cstrEq v3 [45] then st.crypto_device else some v3⟩ := by
        simp [getStep, hv, hm, allReq, hv2, hv3]
      have hfl : (l :: ls).filter (lineMatches spec ty) =
          l :: ls.filter (lineMatches spec ty) := by
        rw [List.filter_cons_of_pos]; rw [hlm]; exact hm
      rw [List.foldl_cons, hstep, ih _ hwfr, hfl]
      simp [List.any_cons, hlm, hm, lastOr, lastND, hv2, hv3]
    · have hstep : getStep spec ty allReq (some st) l = some st := by
        simp [getStep, hv, hm]
      have hfl : (l :: ls).filter (lineMatches spec ty) =
          ls.filter (lineMatches spec ty) := by
        rw [List.filter_cons_of_neg]; rw [hlm]
        exact fun hc => hm hc
      rw [List.foldl_cons, hstep, ih _ hwfr, hfl]
      simp [List.any_cons, hlm, hm]

/-- C2 (amended): on a well-formed cmtab file, lookup reports found when
some record matches; mountpoint and container come from the LAST matching
record; the loop/crypto out-parameters hold the field of the last
matching record that is not `"-"` — a `"-"` does NOT overwrite a value
copied from an earlier matching record, and the out-parameter is absent
only when every matching record stores `"-"`. -/
theorem pmt_cmtab_get_last_match (file spec : List Nat) (ty : Nat)
    (hty : ty < 4)
    (hwf : ∀ l ∈ splitLines file, ∀ i, i < 4 → (fieldOf l i).isSome) :
    pmt_cmtab_get file spec ty allReq =
      some (if (splitLines file).any (lineMatches spec ty) then 1 else 0,
        { found := (splitLines file).any (lineMatches spec ty),
          mountpoint := lastOr none
            (((splitLines file).filter (lineMatches spec ty)).map
              (fun l => fieldOf l 0)),
          container := lastOr none
            (((splitLines file).filter (lineMatches spec ty)).map
              (fun l => fieldOf l 1)),
          loop_device := lastND 2 none
            ((splitLines file).filter (lineMatches spec ty)),
          crypto_device := lastND 3 none
            ((splitLines file).filter (lineMatches spec ty)) }) := by
  unfold pmt_cmtab_get
  rw [if_neg (by omega)]
  rw [cmtab_get_fold spec ty hty (splitLines file)
    ⟨false, none, none, none, none⟩ hwf]
  simp

/-- Witness for C2 (amended) on the two-record overmount file. -/
theorem pmt_cmtab_get_last_match_witness :
    pmt_cmtab_get cexC2File (strBytes "/mnt/a") 0 allReq =
      some (1, ⟨true, some (strBytes "/mnt/a"), some (strBytes "/c2"),
        some (strBytes "/dev/loop1"), some (strBytes "/dev/mapper/y")⟩) := by
  rw [pmt_cmtab_get_last_match cexC2File (strBytes "/mnt/a") 0 (by omega)
    (by decide)]
  decide

/-- C4: if the kernel mount list holds an entry that is not a loop device,
whose filesystem name equals the volume's canonical device form
(case-insensitively when the entry's type is smbfs/cifs/ncpfs,
case-sensitively otherwise) and whose mount directory equals the
configured mountpoint or its realpath, then `do_mount` returns success
without spawning any helper process. -/
theorem do_mount_already_mounted (cfg : Config) (env : MountEnv)
    (es : List MtabEnt) (e : MtabEnt)
    (hmt : env.mtab = some es) (hin : e ∈ es)
    (hlb : env.loopBk e.fsname = e.fsname)
    (hname : (if e.fstype = "smbfs" ∨ e.fstype = "cifs" ∨ e.fstype = "ncpfs"
              then caseEq e.fsname (vol_to_dev cfg.volume)
              else e.fsname == vol_to_dev cfg.volume) = true)
    (hdir : (e.dir == cfg.volume.mountpoint ||
             e.dir == env.realpathMpt.getD cfg.volume.mountpoint) = true) :
    (do_mount cfg env).ret = 1 ∧ (do_mount cfg env).spawns = [] := by
  have hmm : mtabEntMatches cfg.volume (vol_to_dev cfg.volume)
      (env.realpathMpt.getD cfg.volume.mountpoint) env.loopBk e = true := by
    unfold mtabEntMatches
    rw [hlb, hname, hdir]
    decide
  have ham : already_mounted cfg env = 1 := by
    unfold already_mounted
    rw [hmt]
    simp only
    rw [if_pos]
    exact List.any_eq_true.mpr ⟨e, hin, hmm⟩
  have h1 : do_mount cfg env = ⟨1, [], false, false⟩ := by
    unfold do_mount
    rw [ham]
    norm_num
  rw [h1]
  exact ⟨rfl, rfl⟩

/-- Witness for C4: cifs volume (server `SRV`, share `share`, mountpoint
`/mnt/s`) against the mtab line `//srv/share /mnt/s cifs rw 0 0`. -/
theorem do_mount_already_mounted_witness :
    (do_mount cfgC4 envC4).ret = 1 ∧ (do_mount cfgC4 envC4).spawns = [] :=
  do_mount_already_mounted cfgC4 envC4 [entC4] entC4 (by decide) (by decide)
    rfl (by decide) (by decide)

/-- C7: when `ehd_load` is given a regular-file container, allocates a
loop device, and the cryptsetup helper starts but exits with nonzero
status, the loop device is released and the return value is 0
(failure). -/
theorem ehd_load_crypto_failure_rollback (p : String) (env : EhdEnv)
    (h1 : env.statOk = true) (h2 : env.isBlk = false)
    (h3 : 0 < env.loopSetup)
    (h4 : 0 ≤ env.load2.luks.runSync) (h5 : env.load2.luks.runSync ≤ 65535)
    (h6 : 0 < env.load2.runAsync) (h7 : env.load2.waitStatus ≠ 0) :
    (ehd_load p env).ret = 0 ∧ (ehd_load p env).released = [env.loopDev] := by
  have hl2 : ehd_load_2 env.load2 = false := by
    unfold ehd_load_2 ehd_is_luks
    have h4' : ¬env.load2.luks.runSync < 0 := not_lt.mpr h4
    have h5' : ¬(65535 : Int) < env.load2.luks.runSync := not_lt.mpr h5
    have h6' : ¬env.load2.runAsync ≤ 0 := not_le.mpr h6
    by_cases hz : env.load2.luks.runSync = 0 <;>
      simp [h4', h5', h6', h7, hz]
  have h30 : ¬env.loopSetup = 0 := by omega
  have h31 : ¬env.loopSetup < 0 := by omega
  have hload : ehd_load p env = ⟨0, [env.loopDev], none⟩ := by
    unfold ehd_load
    rw [h1, h2]
    simp [h30, h31, hl2]
  rw [hload]
  exact ⟨rfl, rfl⟩

/-- Witness for C7: regular-file container, loop `/dev/loop7`, helper
exit status 1. -/
theorem ehd_load_crypto_failure_rollback_witness :
    (ehd_load "/srv/img.bin" envC7).ret = 0 ∧
    (ehd_load "/srv/img.bin" envC7).released = ["/dev/loop7"] :=
  ehd_load_crypto_failure_rollback "/srv/img.bin" envC7 rfl rfl (by decide)
    (by decide) (by decide) (by decide) (by decide)
